import Mathlib

/-
Shallow embedding of the ship kinematic core of Void_Contingency
(src/include/core/Vector2f.hpp, src/include/core/Transform.hpp,
src/include/game/ship/Ship.hpp, src/src/game/ship/Ship.cpp,
src/src/game/ship/components/MovementComponent.cpp,
src/src/game/ship/components/EngineComponent.cpp).

float32 values are modelled as real numbers; std::sqrt, std::cos, std::sin
become Real.sqrt, Real.cos, Real.sin.  A component's nullable ship
back-reference (ShipComponent::ship_) is modelled with Option / an
attached flag.  Mutation of the ship through the back-reference becomes
explicit state passing: each member function that mutates the ship takes
the ship state and returns the updated one.
-/

namespace VoidContingency

noncomputable section

open Classical

/-- 2D float vector, from include/core/Vector2f.hpp. -/
structure Vector2f where
  x : ℝ
  y : ℝ

/-- Componentwise addition, Vector2f::operator+. -/
instance : Add Vector2f where
  add a b := ⟨a.x + b.x, a.y + b.y⟩

/-- Scalar multiplication, Vector2f::operator*(float). -/
instance : HMul Vector2f ℝ Vector2f where
  hMul v k := ⟨v.x * k, v.y * k⟩

/-- Scalar division, Vector2f::operator/(float). -/
instance : HDiv Vector2f ℝ Vector2f where
  hDiv v k := ⟨v.x / k, v.y / k⟩

/-- Vector2f::length, std::sqrt(x*x + y*y). -/
noncomputable def Vector2f.length (v : Vector2f) : ℝ :=
  Real.sqrt (v.x * v.x + v.y * v.y)

/-- Vector2f::lengthSquared. -/
def Vector2f.lengthSquared (v : Vector2f) : ℝ :=
  v.x * v.x + v.y * v.y

/-- Vector2f::normalized: divide by the length when it is positive,
otherwise return the vector unchanged. -/
noncomputable def Vector2f.normalized (v : Vector2f) : Vector2f :=
  let len := v.length
  if 0 < len then ⟨v.x / len, v.y / len⟩ else v

/-- Vector2f::dot. -/
def Vector2f.dot (a b : Vector2f) : ℝ :=
  a.x * b.x + a.y * b.y

/-- Transform, from include/core/Transform.hpp: position, rotation in
degrees, scale. -/
structure Transform where
  position : Vector2f
  rotation : ℝ
  scale : Vector2f

/-- Transform::getForward: degrees to radians with the literal
3.14159265/180, then (cos, sin). -/
noncomputable def Transform.getForward (t : Transform) : Vector2f :=
  let radians := t.rotation * (3.14159265 / 180.0)
  ⟨Real.cos radians, Real.sin radians⟩

/-- The data fields of Ship (include/game/ship/Ship.hpp) except the owned
component list, which is kept separately so that components can act on
this state without mutual recursion. -/
structure ShipState where
  name : String
  health : ℝ
  maxHealth : ℝ
  transform : Transform
  velocity : Vector2f

/-- Ship::Ship(name): health 100, maxHealth 100, velocity (0,0),
identity transform. -/
def ShipState.create (name : String) : ShipState :=
  { name := name
    health := 100
    maxHealth := 100
    transform := { position := ⟨0, 0⟩, rotation := 0, scale := ⟨1, 1⟩ }
    velocity := ⟨0, 0⟩ }

/-- Ship::setVelocity. -/
def ShipState.setVelocity (s : ShipState) (v : Vector2f) : ShipState :=
  { s with velocity := v }

/-- Modelled from the spec: `Ship::setRotation`.  MovementComponent.cpp
line 35 calls `ship_->setRotation(rotation_)`, but Ship.hpp declares no
rotation setter; the spec (sections 4.4 and 6) requires the ship to
expose one that writes the movement component's rotation onto the ship's
rotation, i.e. onto its transform's rotation field. -/
def ShipState.setRotation (s : ShipState) (r : ℝ) : ShipState :=
  { s with transform := { s.transform with rotation := r } }

/-- Ship::damage: health = max(0, health - amount). -/
def ShipState.damage (s : ShipState) (amount : ℝ) : ShipState :=
  { s with health := max 0 (s.health - amount) }

/-- Ship::heal: health = min(maxHealth, health + amount). -/
def ShipState.heal (s : ShipState) (amount : ℝ) : ShipState :=
  { s with health := min s.maxHealth (s.health + amount) }

/-- MovementMode, from include/game/ship/components/MoveComponent.hpp. -/
inductive MovementMode where
  | Thruster
  | Impulse
  | Hybrid

/-- MovementComponent state fields, from MoveComponent.hpp. -/
structure MovementComponent where
  mode : MovementMode
  thrust : Vector2f
  rotation : ℝ
  angularVelocity : ℝ
  maxSpeed : ℝ
  acceleration : ℝ
  deceleration : ℝ
  angularAcceleration : ℝ
  angularDeceleration : ℝ

/-- Default-constructed MovementComponent (member default values in
MoveComponent.hpp). -/
def MovementComponent.create : MovementComponent :=
  { mode := MovementMode.Thruster
    thrust := ⟨0, 0⟩
    rotation := 0
    angularVelocity := 0
    maxSpeed := 100
    acceleration := 50
    deceleration := 30
    angularAcceleration := 180
    angularDeceleration := 90 }

/-- MovementComponent::applyAcceleration: when the thrust vector is
non-zero, velocity += normalized(thrust) * acceleration * dt. -/
noncomputable def MovementComponent.applyAcceleration
    (c : MovementComponent) (deltaTime : ℝ) (s : ShipState) : ShipState :=
  if 0 < c.thrust.lengthSquared then
    let direction := c.thrust.normalized
    let velocity := s.velocity + direction * c.acceleration * deltaTime
    s.setVelocity velocity
  else s

/-- MovementComponent::applyDeceleration: when speed > 0, rescale the
velocity along its direction to max(0, speed - deceleration * dt). -/
noncomputable def MovementComponent.applyDeceleration
    (c : MovementComponent) (deltaTime : ℝ) (s : ShipState) : ShipState :=
  let velocity := s.velocity
  let speed := velocity.length
  if 0 < speed then
    let direction := velocity / speed
    let newSpeed := max 0 (speed - c.deceleration * deltaTime)
    s.setVelocity (direction * newSpeed)
  else s

/-- MovementComponent::applyAngularAcceleration: when |angularVelocity|
is positive, add sign(angularVelocity) * angularAcceleration * dt. -/
noncomputable def MovementComponent.applyAngularAcceleration
    (c : MovementComponent) (deltaTime : ℝ) : MovementComponent :=
  if 0 < |c.angularVelocity| then
    let sign : ℝ := if 0 < c.angularVelocity then 1 else -1
    { c with angularVelocity :=
        c.angularVelocity + sign * c.angularAcceleration * deltaTime }
  else c

/-- MovementComponent::applyAngularDeceleration. -/
noncomputable def MovementComponent.applyAngularDeceleration
    (c : MovementComponent) (deltaTime : ℝ) : MovementComponent :=
  if 0 < |c.angularVelocity| then
    let sign : ℝ := if 0 < c.angularVelocity then 1 else -1
    let newAngularVelocity :=
      |c.angularVelocity| - c.angularDeceleration * deltaTime
    { c with angularVelocity :=
        if 0 < newAngularVelocity then sign * newAngularVelocity else 0 }
  else c

/-- MovementComponent::clampVelocity: when speed > maxSpeed, set the
velocity to normalized(velocity) * maxSpeed. -/
noncomputable def MovementComponent.clampVelocity
    (c : MovementComponent) (s : ShipState) : ShipState :=
  let velocity := s.velocity
  let speed := velocity.length
  if c.maxSpeed < speed then
    s.setVelocity (velocity.normalized * c.maxSpeed)
  else s

/-- MovementComponent::updateThrusterMode. -/
noncomputable def MovementComponent.updateThrusterMode
    (c : MovementComponent) (deltaTime : ℝ) (s : ShipState) : ShipState :=
  c.clampVelocity (c.applyDeceleration deltaTime (c.applyAcceleration deltaTime s))

/-- MovementComponent::updateImpulseMode: deceleration only, then clamp. -/
noncomputable def MovementComponent.updateImpulseMode
    (c : MovementComponent) (deltaTime : ℝ) (s : ShipState) : ShipState :=
  c.clampVelocity (c.applyDeceleration deltaTime s)

/-- MovementComponent::updateHybridMode: acceleration with deltaTime*0.5,
then deceleration with full deltaTime, then clamp. -/
noncomputable def MovementComponent.updateHybridMode
    (c : MovementComponent) (deltaTime : ℝ) (s : ShipState) : ShipState :=
  c.clampVelocity
    (c.applyDeceleration deltaTime (c.applyAcceleration (deltaTime * 0.5) s))

/-- The attached-ship path of MovementComponent::update: dispatch on the
mode, then write the component's rotation onto the ship. -/
noncomputable def MovementComponent.updateAttached
    (c : MovementComponent) (deltaTime : ℝ) (s : ShipState) : ShipState :=
  let s1 :=
    match c.mode with
    | MovementMode.Thruster => c.updateThrusterMode deltaTime s
    | MovementMode.Impulse => c.updateImpulseMode deltaTime s
    | MovementMode.Hybrid => c.updateHybridMode deltaTime s
  s1.setRotation c.rotation

/-- MovementComponent::update with the ship back-reference made explicit:
`none` models a null ship_ and the function returns with no change at
all (the `if (!ship_) return;` guard); otherwise it runs the attached
path on the referenced ship. -/
noncomputable def MovementComponent.update (c : MovementComponent)
    (deltaTime : ℝ) : Option ShipState → MovementComponent × Option ShipState
  | none => (c, none)
  | some s => (c, some (c.updateAttached deltaTime s))

/-- The velocity produced by a movement tick just before clampVelocity
runs (the mode dispatch of MovementComponent::update without the final
clamp of each branch). -/
noncomputable def MovementComponent.preClamp
    (c : MovementComponent) (deltaTime : ℝ) (s : ShipState) : ShipState :=
  match c.mode with
  | MovementMode.Thruster =>
      c.applyDeceleration deltaTime (c.applyAcceleration deltaTime s)
  | MovementMode.Impulse => c.applyDeceleration deltaTime s
  | MovementMode.Hybrid =>
      c.applyDeceleration deltaTime (c.applyAcceleration (deltaTime * 0.5) s)

/-- EngineComponent state fields, from EngineComponent.hpp. -/
structure EngineComponent where
  thrust : ℝ
  maxThrust : ℝ
  efficiency : ℝ

/-- Default-constructed EngineComponent: thrust 0, maxThrust 100,
efficiency 0.8. -/
def EngineComponent.create : EngineComponent :=
  { thrust := 0, maxThrust := 100, efficiency := 0.8 }

/-- The attached-ship path of EngineComponent::update:
velocity += getForward() * (thrust * efficiency) * dt. -/
noncomputable def EngineComponent.updateAttached
    (e : EngineComponent) (deltaTime : ℝ) (s : ShipState) : ShipState :=
  let force := e.thrust * e.efficiency
  let direction := s.transform.getForward
  let velocity := s.velocity + direction * force * deltaTime
  s.setVelocity velocity

/-- EngineComponent::update with the nullable ship back-reference made
explicit, as for MovementComponent.update. -/
noncomputable def EngineComponent.update (e : EngineComponent)
    (deltaTime : ℝ) : Option ShipState → EngineComponent × Option ShipState
  | none => (e, none)
  | some s => (e, some (e.updateAttached deltaTime s))

/-- An owned component in a ship's component list.  The Bool records
whether ShipComponent::setShip has been called with the owning ship:
when it is false the component's ship_ is null and its update is the
silent no-op. -/
inductive Component where
  | movement (attached : Bool) (c : MovementComponent)
  | engine (attached : Bool) (e : EngineComponent)

/-- Component::update(dt) as invoked from Ship::update, acting on the
owning ship's state through the back-reference when attached. -/
noncomputable def Component.update (deltaTime : ℝ) :
    Component → ShipState → Component × ShipState
  | Component.movement attached c, s =>
      if attached then
        (Component.movement attached c, c.updateAttached deltaTime s)
      else (Component.movement attached c, s)
  | Component.engine attached e, s =>
      if attached then
        (Component.engine attached e, e.updateAttached deltaTime s)
      else (Component.engine attached e, s)

/-- The component loop of Ship::update: call update(dt) on every owned
component in insertion order, threading the ship state through. -/
noncomputable def updateComponents (deltaTime : ℝ) :
    List Component → ShipState → List Component × ShipState
  | [], s => ([], s)
  | comp :: rest, s =>
      let p := comp.update deltaTime s
      let q := updateComponents deltaTime rest p.2
      (p.1 :: q.1, q.2)

/-- A Ship: its scalar/vector state plus its ordered owned components. -/
structure Ship where
  state : ShipState
  components : List Component

/-- Ship::update: position += velocity * dt, then update every component
in insertion order. -/
noncomputable def Ship.update (ship : Ship) (deltaTime : ℝ) : Ship :=
  let st := ship.state
  let st := { st with transform :=
    { st.transform with position :=
        st.transform.position + st.velocity * deltaTime } }
  let p := updateComponents deltaTime ship.components st
  { state := p.2, components := p.1 }

/-- The first statement of Ship::update taken on its own:
position += velocity * deltaTime, from the velocity held when the tick
starts. -/
def ShipState.integratePosition (s : ShipState) (deltaTime : ℝ) : ShipState :=
  { s with transform := { s.transform with position :=
      s.transform.position + s.velocity * deltaTime } }

/-- A freshly constructed ship, as in tests/unit/game/ship/Ship.cpp. -/
def testShip : ShipState := ShipState.create "Test Ship"

/-- The test ship moving with velocity (3,4), of length 5. -/
def movingShip : ShipState := { testShip with velocity := ⟨3, 4⟩ }

/-- An Impulse-mode movement component whose maxSpeed was set to -1
through setMaxSpeed (which performs no validation). -/
def negMaxSpeedComponent : MovementComponent :=
  { MovementComponent.create with mode := MovementMode.Impulse, maxSpeed := -1 }

/-- A default movement component switched to Hybrid mode. -/
def hybridComponent : MovementComponent :=
  { MovementComponent.create with mode := MovementMode.Hybrid }

/-- An engine component with thrust 50 (efficiency keeps its default
0.8). -/
def engineTestComponent : EngineComponent :=
  { EngineComponent.create with thrust := 50 }

/-- A moving ship owning an attached movement component and an attached
engine component, in that insertion order. -/
def componentShip : Ship :=
  { state := movingShip
    components := [Component.movement true MovementComponent.create,
      Component.engine true EngineComponent.create] }

end

/- Basic lemmas about the Vector2f operations. -/

@[simp]
theorem Vector2f.add_x (a b : Vector2f) : (a + b).x = a.x + b.x := rfl

@[simp]
theorem Vector2f.add_y (a b : Vector2f) : (a + b).y = a.y + b.y := rfl

@[simp]
theorem Vector2f.mul_x (v : Vector2f) (k : ℝ) : (v * k).x = v.x * k := rfl

@[simp]
theorem Vector2f.mul_y (v : Vector2f) (k : ℝ) : (v * k).y = v.y * k := rfl

@[simp]
theorem Vector2f.div_x (v : Vector2f) (k : ℝ) : (v / k).x = v.x / k := rfl

@[simp]
theorem Vector2f.div_y (v : Vector2f) (k : ℝ) : (v / k).y = v.y / k := rfl

theorem Vector2f.length_nonneg (v : Vector2f) : 0 ≤ v.length :=
  Real.sqrt_nonneg _

theorem Vector2f.mul_self_length (v : Vector2f) :
    v.length * v.length = v.x * v.x + v.y * v.y :=
  Real.mul_self_sqrt
    (add_nonneg (mul_self_nonneg _) (mul_self_nonneg _))

theorem Vector2f.length_mul (v : Vector2f) (k : ℝ) :
    (v * k).length = v.length * |k| := by
  unfold Vector2f.length
  have h : (v * k).x * (v * k).x + (v * k).y * (v * k).y
      = (v.x * v.x + v.y * v.y) * (k * k) := by
    simp only [Vector2f.mul_x, Vector2f.mul_y]; ring
  rw [h, Real.sqrt_mul
    (add_nonneg (mul_self_nonneg _) (mul_self_nonneg _)),
    Real.sqrt_mul_self_eq_abs]

theorem Vector2f.length_zero : (⟨0, 0⟩ : Vector2f).length = 0 := by
  simp [Vector2f.length]

theorem Vector2f.normalized_of_length_eq_zero (v : Vector2f)
    (h : v.length = 0) : v.normalized = v := by
  simp [Vector2f.normalized, h]

theorem Vector2f.normalized_of_length_pos (v : Vector2f)
    (h : 0 < v.length) : v.normalized = ⟨v.x / v.length, v.y / v.length⟩ := by
  simp [Vector2f.normalized, if_pos h]

theorem Vector2f.normalized_length (v : Vector2f) (h : 0 < v.length) :
    v.normalized.length = 1 := by
  have hL : v.length * v.length = v.x * v.x + v.y * v.y :=
    Vector2f.mul_self_length v
  have hS : 0 < v.x * v.x + v.y * v.y := by nlinarith
  rw [Vector2f.normalized_of_length_pos v h]
  show Real.sqrt (v.x / v.length * (v.x / v.length)
      + v.y / v.length * (v.y / v.length)) = 1
  have h2 : v.x / v.length * (v.x / v.length)
        + v.y / v.length * (v.y / v.length)
      = (v.x * v.x + v.y * v.y) / (v.length * v.length) := by ring
  rw [h2, hL, div_self (ne_of_gt hS), Real.sqrt_one]

/- Projection lemmas for the ship-state mutators. -/

@[simp]
theorem ShipState.setVelocity_velocity (s : ShipState) (v : Vector2f) :
    (s.setVelocity v).velocity = v := rfl

@[simp]
theorem ShipState.setVelocity_transform (s : ShipState) (v : Vector2f) :
    (s.setVelocity v).transform = s.transform := rfl

@[simp]
theorem ShipState.setRotation_velocity (s : ShipState) (r : ℝ) :
    (s.setRotation r).velocity = s.velocity := rfl

@[simp]
theorem ShipState.setRotation_rotation (s : ShipState) (r : ℝ) :
    (s.setRotation r).transform.rotation = r := rfl

@[simp]
theorem ShipState.setRotation_position (s : ShipState) (r : ℝ) :
    (s.setRotation r).transform.position = s.transform.position := rfl

/- The movement helpers only write the ship's velocity, never its
transform. -/

theorem MovementComponent.applyAcceleration_transform
    (c : MovementComponent) (dt : ℝ) (s : ShipState) :
    (c.applyAcceleration dt s).transform = s.transform := by
  unfold MovementComponent.applyAcceleration
  split <;> rfl

theorem MovementComponent.applyDeceleration_transform
    (c : MovementComponent) (dt : ℝ) (s : ShipState) :
    (c.applyDeceleration dt s).transform = s.transform := by
  unfold MovementComponent.applyDeceleration
  dsimp only
  split <;> rfl

theorem MovementComponent.clampVelocity_transform
    (c : MovementComponent) (s : ShipState) :
    (c.clampVelocity s).transform = s.transform := by
  unfold MovementComponent.clampVelocity
  dsimp only
  split <;> rfl

/-- The mode dispatch of MovementComponent::update is clampVelocity after
the mode's pre-clamp pipeline, followed by the rotation write-back. -/
theorem MovementComponent.updateAttached_eq
    (c : MovementComponent) (dt : ℝ) (s : ShipState) :
    c.updateAttached dt s
      = (c.clampVelocity (c.preClamp dt s)).setRotation c.rotation := by
  unfold MovementComponent.updateAttached MovementComponent.preClamp
    MovementComponent.updateThrusterMode MovementComponent.updateImpulseMode
    MovementComponent.updateHybridMode
  cases c.mode <;> rfl

/-- In every branch, clampVelocity leaves the velocity magnitude at or
below a nonnegative maxSpeed. -/
theorem MovementComponent.clampVelocity_length_le
    (c : MovementComponent) (s : ShipState) (h : 0 ≤ c.maxSpeed) :
    ((c.clampVelocity s).velocity).length ≤ c.maxSpeed := by
  unfold MovementComponent.clampVelocity
  dsimp only
  split
  · next hc =>
      have hpos : 0 < s.velocity.length := lt_of_le_of_lt h hc
      rw [ShipState.setVelocity_velocity, Vector2f.length_mul,
        Vector2f.normalized_length _ hpos, one_mul, abs_of_nonneg h]
  · next hc => exact not_lt.mp hc

/-- When the incoming speed exceeds maxSpeed, clampVelocity rescales to
normalized(velocity) * maxSpeed. -/
theorem MovementComponent.clampVelocity_of_lt
    (c : MovementComponent) (s : ShipState) (h : c.maxSpeed < s.velocity.length) :
    (c.clampVelocity s).velocity = s.velocity.normalized * c.maxSpeed := by
  unfold MovementComponent.clampVelocity
  dsimp only
  rw [if_pos h, ShipState.setVelocity_velocity]

theorem MovementComponent.preClamp_transform
    (c : MovementComponent) (dt : ℝ) (s : ShipState) :
    (c.preClamp dt s).transform = s.transform := by
  unfold MovementComponent.preClamp
  cases c.mode <;>
    simp only [MovementComponent.applyDeceleration_transform,
      MovementComponent.applyAcceleration_transform]

/-- A movement tick never moves the ship: it touches only velocity and
rotation. -/
theorem MovementComponent.updateAttached_position
    (c : MovementComponent) (dt : ℝ) (s : ShipState) :
    (c.updateAttached dt s).transform.position = s.transform.position := by
  rw [MovementComponent.updateAttached_eq, ShipState.setRotation_position,
    MovementComponent.clampVelocity_transform,
    MovementComponent.preClamp_transform]

theorem EngineComponent.updateAttached_transform
    (e : EngineComponent) (dt : ℝ) (s : ShipState) :
    (e.updateAttached dt s).transform = s.transform := rfl

/-- No component's update changes the ship's position. -/
theorem Component.update_position (dt : ℝ) (comp : Component) (s : ShipState) :
    ((comp.update dt s).2).transform.position = s.transform.position := by
  cases comp with
  | movement attached c =>
      cases attached
      · rfl
      · exact MovementComponent.updateAttached_position c dt s
  | engine attached e =>
      cases attached <;> rfl

/-- The component loop of Ship::update leaves the position written by the
integration step untouched. -/
theorem updateComponents_position (dt : ℝ) (l : List Component) (s : ShipState) :
    ((updateComponents dt l s).2).transform.position = s.transform.position := by
  induction l generalizing s with
  | nil => rfl
  | cons comp rest ih =>
      unfold updateComponents
      dsimp only
      rw [ih, Component.update_position]

theorem Vector2f.eq_of_components (a b : Vector2f)
    (hx : a.x = b.x) (hy : a.y = b.y) : a = b := by
  cases a; cases b; cases hx; cases hy; rfl

theorem movingShip_velocity_length : movingShip.velocity.length = 5 := by
  show Real.sqrt ((3:ℝ) * 3 + 4 * 4) = 5
  rw [show (3:ℝ) * 3 + 4 * 4 = 5 ^ 2 by norm_num, Real.sqrt_sq (by norm_num)]

/- Claim theorems. -/

/-- Claim C2: Ship::update first sets the position to
position + velocity * dt using the velocity held before any component
runs, and only afterwards folds update(dt) over the owned components in
insertion order; no component changes the position again. -/
theorem ship_update_integrates_position (ship : Ship) (dt : ℝ) (_h : 0 ≤ dt) :
    (ship.update dt).state.transform.position
      = ship.state.transform.position + ship.state.velocity * dt ∧
    ship.update dt =
      { state := (updateComponents dt ship.components
          (ship.state.integratePosition dt)).2
        components := (updateComponents dt ship.components
          (ship.state.integratePosition dt)).1 } :=
  ⟨updateComponents_position dt ship.components
    (ship.state.integratePosition dt), rfl⟩

/-- Witness for C2 on a concrete two-component ship with dt = 1. -/
theorem ship_update_integrates_position_witness :
    (0:ℝ) ≤ 1 ∧
    ((componentShip.update 1).state.transform.position
      = componentShip.state.transform.position
        + componentShip.state.velocity * (1:ℝ) ∧
    componentShip.update 1 =
      { state := (updateComponents 1 componentShip.components
          (componentShip.state.integratePosition 1)).2
        components := (updateComponents 1 componentShip.components
          (componentShip.state.integratePosition 1)).1 }) :=
  ⟨by norm_num,
    ship_update_integrates_position componentShip 1 (by norm_num)⟩

/-- Claim C5: a movement tick on an attached ship always finishes by
writing the component's own rotation field onto the ship's transform
rotation, in every mode.  The rotation setter itself is modelled from
the spec, since Ship.hpp declares none. -/
theorem movement_update_writes_rotation
    (c : MovementComponent) (dt : ℝ) (s : ShipState) :
    c.update dt (some s) = (c, some (c.updateAttached dt s)) ∧
    (c.updateAttached dt s).transform.rotation = c.rotation := by
  refine ⟨rfl, ?_⟩
  rw [MovementComponent.updateAttached_eq, ShipState.setRotation_rotation]

/-- Claim C6: in Hybrid mode the tick is acceleration at dt * 0.5, then
deceleration at full dt, then the velocity clamp, then the rotation
write-back, in that order. -/
theorem hybrid_update_order (c : MovementComponent) (dt : ℝ) (s : ShipState)
    (h : c.mode = MovementMode.Hybrid) :
    c.updateAttached dt s
      = (c.clampVelocity (c.applyDeceleration dt
          (c.applyAcceleration (dt * 0.5) s))).setRotation c.rotation := by
  unfold MovementComponent.updateAttached
  rw [h]
  rfl

/-- Witness for C6 at a concrete Hybrid component. -/
theorem hybrid_update_order_witness :
    hybridComponent.mode = MovementMode.Hybrid ∧
    hybridComponent.updateAttached 1 testShip
      = (hybridComponent.clampVelocity (hybridComponent.applyDeceleration 1
          (hybridComponent.applyAcceleration (1 * 0.5) testShip))).setRotation
          hybridComponent.rotation :=
  ⟨rfl, hybrid_update_order hybridComponent 1 testShip rfl⟩

/-- Claim C7: with a null ship back-reference, both component updates
return immediately: no error value, the component unchanged, and no ship
to mutate. -/
theorem null_ship_update_noop (dt : ℝ)
    (c : MovementComponent) (e : EngineComponent) :
    c.update dt none = (c, none) ∧ e.update dt none = (e, none) :=
  ⟨rfl, rfl⟩

/-- Claim C3 (amended: the interval containment requires a nonnegative
amount): damage and heal always compute max(0, health - amount) and
min(maxHealth, health + amount) and never signal an error, and for
nonnegative amounts they keep a health that starts inside
[0, maxHealth] inside it; a negative amount can leave the interval. -/
theorem ship_damage_heal_saturating (s : ShipState) (amount : ℝ) :
    (s.damage amount).health = max 0 (s.health - amount) ∧
    (s.damage amount).maxHealth = s.maxHealth ∧
    (s.heal amount).health = min s.maxHealth (s.health + amount) ∧
    (s.heal amount).maxHealth = s.maxHealth ∧
    (0 ≤ amount → 0 ≤ s.health → s.health ≤ s.maxHealth →
      0 ≤ (s.damage amount).health ∧ (s.damage amount).health ≤ s.maxHealth ∧
      0 ≤ (s.heal amount).health ∧ (s.heal amount).health ≤ s.maxHealth) := by
  refine ⟨rfl, rfl, rfl, rfl, ?_⟩
  intro ha h0 h1
  refine ⟨le_max_left 0 _, ?_, ?_, min_le_left _ _⟩
  · exact max_le (le_trans h0 h1) (by linarith)
  · exact le_min (le_trans h0 h1) (by linarith)

/-- Witness for C3 at the scenario of the spec: health 100, damage 30. -/
theorem ship_damage_heal_saturating_witness :
    (testShip.damage 30).health = max 0 (testShip.health - 30) ∧
    (testShip.damage 30).maxHealth = testShip.maxHealth ∧
    (testShip.heal 30).health = min testShip.maxHealth (testShip.health + 30) ∧
    (testShip.heal 30).maxHealth = testShip.maxHealth ∧
    ((0:ℝ) ≤ 30 → 0 ≤ testShip.health → testShip.health ≤ testShip.maxHealth →
      0 ≤ (testShip.damage 30).health ∧
      (testShip.damage 30).health ≤ testShip.maxHealth ∧
      0 ≤ (testShip.heal 30).health ∧
      (testShip.heal 30).health ≤ testShip.maxHealth) :=
  ship_damage_heal_saturating testShip 30

/-- Counterexample to C3 as stated: damage with the negative amount -1
pushes a full-health ship to health 101, above maxHealth = 100, so the
claimed interval [0, maxHealth] does not hold for negative amounts. -/
theorem ship_damage_heal_saturating_cex :
    testShip.maxHealth < (testShip.damage (-1)).health := by
  show (100:ℝ) < max 0 (100 - (-1))
  rw [max_eq_right (by norm_num : (0:ℝ) ≤ 100 - (-1))]
  norm_num

/-- Claim C4: when the speed is positive, applyDeceleration rescales the
velocity along its existing direction to max(0, speed - deceleration*dt):
the result is a nonnegative multiple of the prior velocity and never
points the other way. -/
theorem applyDeceleration_preserves_direction
    (c : MovementComponent) (dt : ℝ) (s : ShipState)
    (hs : 0 < s.velocity.length) (_hdt : 0 ≤ dt) :
    (c.applyDeceleration dt s).velocity
      = (s.velocity / s.velocity.length)
          * max 0 (s.velocity.length - c.deceleration * dt) ∧
    ∃ k : ℝ, 0 ≤ k ∧ (c.applyDeceleration dt s).velocity = s.velocity * k := by
  have he : (c.applyDeceleration dt s).velocity
      = (s.velocity / s.velocity.length)
          * max 0 (s.velocity.length - c.deceleration * dt) := by
    unfold MovementComponent.applyDeceleration
    dsimp only
    rw [if_pos hs, ShipState.setVelocity_velocity]
  refine ⟨he, max 0 (s.velocity.length - c.deceleration * dt)
      / s.velocity.length, div_nonneg (le_max_left _ _) hs.le, ?_⟩
  rw [he]
  apply Vector2f.eq_of_components <;>
    simp only [Vector2f.mul_x, Vector2f.mul_y, Vector2f.div_x,
      Vector2f.div_y] <;> ring

/-- Witness for C4: velocity (3,4) of length 5, default deceleration 30,
dt = 1. -/
theorem applyDeceleration_preserves_direction_witness :
    (0:ℝ) < movingShip.velocity.length ∧ (0:ℝ) ≤ 1 ∧
    ((MovementComponent.create.applyDeceleration 1 movingShip).velocity
      = (movingShip.velocity / movingShip.velocity.length)
          * max 0 (movingShip.velocity.length
              - MovementComponent.create.deceleration * 1) ∧
    ∃ k : ℝ, 0 ≤ k ∧
      (MovementComponent.create.applyDeceleration 1 movingShip).velocity
        = movingShip.velocity * k) :=
  ⟨by rw [movingShip_velocity_length]; norm_num, by norm_num,
    applyDeceleration_preserves_direction MovementComponent.create 1 movingShip
      (by rw [movingShip_velocity_length]; norm_num) (by norm_num)⟩

/-- Claim C9: normalized() is total: a vector of length zero comes back
unchanged (in particular the zero vector), and the dividing branch is
taken exactly when the length is strictly positive. -/
theorem normalized_total_on_zero :
    (∀ v : Vector2f, v.length = 0 → v.normalized = v) ∧
    ((⟨0, 0⟩ : Vector2f).length = 0 ∧
      (⟨0, 0⟩ : Vector2f).normalized = ⟨0, 0⟩) ∧
    (∀ v : Vector2f, v.normalized = v ∨
      (0 < v.length ∧ v.normalized = ⟨v.x / v.length, v.y / v.length⟩)) := by
  refine ⟨Vector2f.normalized_of_length_eq_zero,
    ⟨Vector2f.length_zero,
      Vector2f.normalized_of_length_eq_zero _ Vector2f.length_zero⟩, ?_⟩
  intro v
  rcases lt_or_eq_of_le (Vector2f.length_nonneg v) with h | h
  · exact Or.inr ⟨h, Vector2f.normalized_of_length_pos v h⟩
  · exact Or.inl (Vector2f.normalized_of_length_eq_zero v h.symm)

/-- Witness for C9 at the zero vector. -/
theorem normalized_total_on_zero_witness :
    (⟨0, 0⟩ : Vector2f).length = 0 ∧
    (⟨0, 0⟩ : Vector2f).normalized = ⟨0, 0⟩ :=
  ⟨Vector2f.length_zero,
    normalized_total_on_zero.1 ⟨0, 0⟩ Vector2f.length_zero⟩

/-- Claim C10: applyAngularAcceleration never starts rotation from rest:
a zero angular velocity stays exactly zero for every dt and every
angularAcceleration; a nonzero one is only pushed further in its own
sign direction when angularAcceleration and dt are nonnegative. -/
theorem angular_acceleration_needs_spin :
    (∀ (c : MovementComponent) (dt : ℝ), c.angularVelocity = 0 →
      (c.applyAngularAcceleration dt).angularVelocity = 0) ∧
    (∀ (c : MovementComponent) (dt : ℝ),
      0 ≤ c.angularAcceleration → 0 ≤ dt →
      (0 < c.angularVelocity →
        c.angularVelocity ≤ (c.applyAngularAcceleration dt).angularVelocity) ∧
      (c.angularVelocity < 0 →
        (c.applyAngularAcceleration dt).angularVelocity ≤ c.angularVelocity)) := by
  constructor
  · intro c dt h
    unfold MovementComponent.applyAngularAcceleration
    rw [if_neg (by rw [h, abs_zero]; exact lt_irrefl 0)]
    exact h
  · intro c dt hacc hdt
    have hmul : 0 ≤ c.angularAcceleration * dt := mul_nonneg hacc hdt
    constructor
    · intro hpos
      unfold MovementComponent.applyAngularAcceleration
      rw [if_pos (abs_pos.mpr (ne_of_gt hpos))]
      dsimp only
      rw [if_pos hpos]
      show c.angularVelocity
        ≤ c.angularVelocity + 1 * c.angularAcceleration * dt
      nlinarith
    · intro hneg
      unfold MovementComponent.applyAngularAcceleration
      rw [if_pos (abs_pos.mpr (ne_of_lt hneg))]
      dsimp only
      rw [if_neg (not_lt.mpr hneg.le)]
      show c.angularVelocity + (-1) * c.angularAcceleration * dt
        ≤ c.angularVelocity
      nlinarith

/-- Witness for C10: the default component is at rest and stays at rest
for dt = 1 with angularAcceleration 180. -/
theorem angular_acceleration_needs_spin_witness :
    MovementComponent.create.angularVelocity = 0 ∧
    (MovementComponent.create.applyAngularAcceleration 1).angularVelocity = 0 :=
  ⟨rfl, angular_acceleration_needs_spin.1 MovementComponent.create 1 rfl⟩

/-- Claim C8: an attached engine tick adds forward * (thrust*efficiency)
* dt to the ship's velocity; with thrust 50, efficiency 0.8, forward
(1,0) and dt 1, a ship starting at velocity (0,0) ends with velocity.x
exactly 40. -/
theorem engine_update_adds_thrust :
    (∀ (e : EngineComponent) (dt : ℝ) (s : ShipState),
      e.updateAttached dt s = s.setVelocity (s.velocity
        + s.transform.getForward * (e.thrust * e.efficiency) * dt)) ∧
    testShip.velocity = ⟨0, 0⟩ ∧
    testShip.transform.getForward = ⟨1, 0⟩ ∧
    (engineTestComponent.updateAttached 1 testShip).velocity.x = 40 := by
  refine ⟨fun e dt s => rfl, rfl, ?_, ?_⟩
  · show (⟨Real.cos ((0:ℝ) * (3.14159265 / 180.0)),
        Real.sin ((0:ℝ) * (3.14159265 / 180.0))⟩ : Vector2f) = ⟨1, 0⟩
    rw [zero_mul, Real.cos_zero, Real.sin_zero]
  · show (0:ℝ) + Real.cos ((0:ℝ) * (3.14159265 / 180.0)) * (50 * 0.8) * 1 = 40
    rw [zero_mul, Real.cos_zero]
    norm_num

/-- Claim C1 (amended: requires a nonnegative maxSpeed, which setMaxSpeed
does not itself guarantee): after a movement tick on an attached ship in
any mode, the velocity magnitude is at most maxSpeed, and whenever the
pre-clamp speed exceeds maxSpeed the velocity is rescaled to exactly
maxSpeed along its pre-clamp direction. -/
theorem movement_update_speed_limit
    (c : MovementComponent) (dt : ℝ) (s : ShipState) (h : 0 ≤ c.maxSpeed) :
    c.update dt (some s) = (c, some (c.updateAttached dt s)) ∧
    (c.updateAttached dt s).velocity.length ≤ c.maxSpeed ∧
    (c.maxSpeed < ((c.preClamp dt s).velocity).length →
      (c.updateAttached dt s).velocity
        = (c.preClamp dt s).velocity.normalized * c.maxSpeed ∧
      (c.updateAttached dt s).velocity.length = c.maxSpeed ∧
      ∃ k : ℝ, 0 ≤ k ∧ (c.updateAttached dt s).velocity
        = (c.preClamp dt s).velocity * k) := by
  have hv : (c.updateAttached dt s).velocity
      = (c.clampVelocity (c.preClamp dt s)).velocity := by
    rw [MovementComponent.updateAttached_eq, ShipState.setRotation_velocity]
  refine ⟨rfl, ?_, ?_⟩
  · rw [hv]
    exact MovementComponent.clampVelocity_length_le c _ h
  · intro hgt
    have e1 : (c.updateAttached dt s).velocity
        = (c.preClamp dt s).velocity.normalized * c.maxSpeed := by
      rw [hv]
      exact MovementComponent.clampVelocity_of_lt c _ hgt
    have hpos : 0 < ((c.preClamp dt s).velocity).length := lt_of_le_of_lt h hgt
    refine ⟨e1, ?_, ?_⟩
    · rw [e1, Vector2f.length_mul, Vector2f.normalized_length _ hpos,
        one_mul, abs_of_nonneg h]
    · refine ⟨c.maxSpeed / ((c.preClamp dt s).velocity).length,
        div_nonneg h hpos.le, ?_⟩
      rw [e1, Vector2f.normalized_of_length_pos _ hpos]
      apply Vector2f.eq_of_components <;>
        simp only [Vector2f.mul_x, Vector2f.mul_y] <;> ring

/-- Witness for C1 at the default component (maxSpeed 100) ticking the
fresh test ship with dt = 1. -/
theorem movement_update_speed_limit_witness :
    (0:ℝ) ≤ MovementComponent.create.maxSpeed ∧
    (MovementComponent.create.update 1 (some testShip)
        = (MovementComponent.create,
            some (MovementComponent.create.updateAttached 1 testShip)) ∧
    (MovementComponent.create.updateAttached 1 testShip).velocity.length
        ≤ MovementComponent.create.maxSpeed ∧
    (MovementComponent.create.maxSpeed
        < ((MovementComponent.create.preClamp 1 testShip).velocity).length →
      (MovementComponent.create.updateAttached 1 testShip).velocity
        = (MovementComponent.create.preClamp 1 testShip).velocity.normalized
            * MovementComponent.create.maxSpeed ∧
      (MovementComponent.create.updateAttached 1 testShip).velocity.length
        = MovementComponent.create.maxSpeed ∧
      ∃ k : ℝ, 0 ≤ k ∧
        (MovementComponent.create.updateAttached 1 testShip).velocity
          = (MovementComponent.create.preClamp 1 testShip).velocity * k)) :=
  ⟨by norm_num [MovementComponent.create],
    movement_update_speed_limit MovementComponent.create 1 testShip
      (by norm_num [MovementComponent.create])⟩

/-- Counterexample to C1 as stated: with maxSpeed set to -1 through
setMaxSpeed, an Impulse-mode tick of a resting ship ends with speed 0,
which is not at most maxSpeed, so the claim fails without a
nonnegativity assumption on maxSpeed. -/
theorem movement_update_speed_limit_cex :
    ¬ ((negMaxSpeedComponent.updateAttached 1 testShip).velocity.length
        ≤ negMaxSpeedComponent.maxSpeed) := by
  have hlen : testShip.velocity.length = 0 := Vector2f.length_zero
  have hdec : negMaxSpeedComponent.applyDeceleration 1 testShip = testShip := by
    unfold MovementComponent.applyDeceleration
    dsimp only
    rw [if_neg (by rw [hlen]; exact lt_irrefl 0)]
  have hpre : negMaxSpeedComponent.preClamp 1 testShip = testShip := hdec
  have hclamp : (negMaxSpeedComponent.clampVelocity testShip).velocity
      = testShip.velocity.normalized * negMaxSpeedComponent.maxSpeed :=
    MovementComponent.clampVelocity_of_lt _ _
      (by rw [hlen]; show (-1:ℝ) < 0; norm_num)
  have hfinal :
      (negMaxSpeedComponent.updateAttached 1 testShip).velocity.length = 0 := by
    rw [MovementComponent.updateAttached_eq, ShipState.setRotation_velocity,
      hpre, hclamp,
      Vector2f.normalized_of_length_eq_zero _ hlen,
      Vector2f.length_mul, hlen, zero_mul]
  rw [hfinal]
  show ¬ ((0:ℝ) ≤ -1)
  norm_num

end VoidContingency
